import Mathlib

/-!
Verification of the VMC water-level scraper repository
(`scrape_water_level.py`, `scrape_water_level_selenium.py`,
`scrape_water_level_v3.py`).

The scripts parse an HTML page with BeautifulSoup, locate a table of
water-level readings, extract one flat three-string-field record per data
row, and fall back to mock data / retries when acquisition fails.

Shallow embedding choices:
* HTML documents are modelled as a tree of element / text nodes carrying
  the two attributes the scripts inspect (`id` and `class`).
* BeautifulSoup's `find_all` returns matching descendant elements in
  document (pre-)order; `find` returns the first of these; `.text` is the
  concatenation of all descendant strings.  These are modelled directly.
* Python dicts `{'Location': ..., 'Water Level (Feet)': ..., 'Date & Time': ...}`
  are modelled as association lists `List (String × String)`.
* Wall-clock time (`datetime.now()`) is an explicit parameter; `strftime`
  is modelled character for character for the three format strings used.
* Network, browser and JSON libraries are external collaborators and are
  modelled as environment functions (e.g. the stdout produced by each
  `curl` invocation).
-/

namespace WaterLevel

/-- An HTML DOM node: an element with tag name, optional `id` attribute,
optional `class` attribute and children, or a bare text node
(BeautifulSoup `NavigableString`). -/
inductive Node where
  | elem (tag : String) (idAttr : Option String) (classAttr : Option String)
      (children : List Node)
  | text (s : String)

mutual

/-- All descendant nodes of a node in document (pre-)order, excluding the
node itself — the search space of BeautifulSoup's `find_all` / `find`. -/
def Node.descendants : Node → List Node
  | .elem _ _ _ cs => Node.descList cs
  | .text _ => []

/-- Pre-order listing of a forest: each root followed by its descendants. -/
def Node.descList : List Node → List Node
  | [] => []
  | c :: cs => c :: Node.descendants c ++ Node.descList cs

end

mutual

/-- All `NavigableString`s in a node's subtree, in document order
(for a text node, the string itself). -/
def Node.strings : Node → List String
  | .elem _ _ _ cs => Node.stringsList cs
  | .text s => [s]

/-- Strings of a forest in document order. -/
def Node.stringsList : List Node → List String
  | [] => []
  | c :: cs => Node.strings c ++ Node.stringsList cs

end

/-- BeautifulSoup's `.text`: concatenation of all strings in the subtree. -/
def Node.textContent (n : Node) : String :=
  String.join n.strings

/-- Whether a node is an element with the given tag. -/
def Node.isTag (t : String) : Node → Bool
  | .elem tag _ _ _ => tag == t
  | .text _ => false

/-- `node.find_all(t)`: every descendant element with tag `t`, in document
order. -/
def Node.findAll (n : Node) (t : String) : List Node :=
  n.descendants.filter (Node.isTag t)

/-- `node.find(t)`: the first descendant element with tag `t`. -/
def Node.findTag (n : Node) (t : String) : Option Node :=
  (n.findAll t).head?

/-- The `id` attribute of a node (`None` for text nodes). -/
def Node.idOf : Node → Option String
  | .elem _ i _ _ => i
  | .text _ => none

/-- The `class` attribute of a node (`None` for text nodes). -/
def Node.classOf : Node → Option String
  | .elem _ _ c _ => c
  | .text _ => none

/-- Python `s.lower()` (ASCII model of `str.lower`). -/
def pyLower (s : String) : String :=
  s.map Char.toLower

/-- Python `pat in s` (substring containment). -/
def pyContains (s pat : String) : Bool :=
  decide (List.IsInfix pat.toList s.toList)

/-- Python `s.strip()`: remove leading and trailing whitespace. -/
def pyStrip (s : String) : String :=
  ⟨((s.data.dropWhile Char.isWhitespace).reverse.dropWhile
      Char.isWhitespace).reverse⟩

/-- A scraped record: a Python dict with string keys and values, as built by
`data.append({'Location': ..., 'Water Level (Feet)': ..., 'Date & Time': ...})`. -/
abbrev ScrapeRecord := List (String × String)

/-- A wall-clock instant, the argument of the `strftime` calls
(`datetime.now()` made explicit). -/
structure PyDateTime where
  year : Nat
  month : Nat
  day : Nat
  hour : Nat
  minute : Nat
  second : Nat

/-- Zero-padded two-digit rendering (`%m`, `%d`, `%H`, `%M`, `%S`). -/
def pad2 (n : Nat) : String :=
  if n < 10 then "0" ++ toString n else toString n

/-- Zero-padded four-digit rendering (`%Y` as CPython prints it). -/
def pad4 (n : Nat) : String :=
  if n < 10 then "000" ++ toString n
  else if n < 100 then "00" ++ toString n
  else if n < 1000 then "0" ++ toString n
  else toString n

/-- `datetime.now().strftime('%Y-%m-%d %H:%M:%S')` — the fallback timestamp
of the extraction loops. -/
def fmtYmdHms (t : PyDateTime) : String :=
  pad4 t.year ++ "-" ++ pad2 t.month ++ "-" ++ pad2 t.day ++ " " ++
    pad2 t.hour ++ ":" ++ pad2 t.minute ++ ":" ++ pad2 t.second

/-- `datetime.now().strftime('%d-%m-%Y %H:%M:%S')` — the timestamp of
`generate_mock_data`. -/
def fmtDmyHms (t : PyDateTime) : String :=
  pad2 t.day ++ "-" ++ pad2 t.month ++ "-" ++ pad4 t.year ++ " " ++
    pad2 t.hour ++ ":" ++ pad2 t.minute ++ ":" ++ pad2 t.second

/-- `datetime.now().strftime('%Y-%m-%d')` — the date in the CSV filename. -/
def fmtYmd (t : PyDateTime) : String :=
  pad4 t.year ++ "-" ++ pad2 t.month ++ "-" ++ pad2 t.day

/-- `re.match(r'^[\d.]+$', s)` as a Boolean: a non-empty run of digits and
dots spanning the whole string (with `$` also accepting a position just
before one final newline, as in Python's `re`).  ASCII model of `\d`. -/
def reMatchDigitsDots (s : String) : Bool :=
  let cs := s.data
  let b := if cs.getLast? == some '\n' then cs.dropLast else cs
  !b.isEmpty && b.all (fun c => c.isDigit || c == '.')

/-- Locator approach 1 (`scrape_water_level_v3.py:614`):
`soup.find('table', {'id': 'GridView1'})`'s match predicate. -/
def isGridView1 (t : Node) : Bool :=
  t.idOf == some "GridView1"

/-- Locator approach 2 (`scrape_water_level_v3.py:620`):
`{'class': lambda x: x and 'table' in x.lower()}`.  The `class` attribute is
modelled as one string; the lambda rejects a missing or empty attribute. -/
def classHasTable (t : Node) : Bool :=
  match t.classOf with
  | some c => !c.isEmpty && pyContains (pyLower c) "table"
  | none => false

/-- Locator approach 3 (`scrape_water_level_v3.py:628`):
`t.find(text=lambda x: x and 'water level' in x.lower())` succeeds. -/
def hasWaterLevelString (t : Node) : Bool :=
  t.strings.any (fun s => !s.isEmpty && pyContains (pyLower s) "water level")

/-- Locator approach 4 (`scrape_water_level_v3.py:636`): the table has more
than 5 `tr` descendants. -/
def hasManyRows (t : Node) : Bool :=
  5 < (t.findAll "tr").length

/-- The table-locating prelude of `extract_data_from_html`
(`scrape_water_level_v3.py:610-646`): approach 1, then 2, then 3, then 4,
each taking the first matching table in document order. -/
def locateTable (root : Node) : Option Node :=
  let tables := root.findAll "table"
  match tables.find? isGridView1 with
  | some t => some t
  | none =>
    match tables.find? classHasTable with
    | some t => some t
    | none =>
      match tables.find? hasWaterLevelString with
      | some t => some t
      | none => tables.find? hasManyRows

/-- The shared cell-value pattern of the extraction loops
(`scrape_water_level_v3.py:681-701`): if the cell holds a nested table, the
stripped text of that table's first `td` (empty when it has none),
otherwise the stripped text of the cell itself. -/
def nestedCellValue (cell : Node) : String :=
  match cell.findTag "table" with
  | some innerTable =>
    match innerTable.findTag "td" with
    | some innerTd => pyStrip innerTd.textContent
    | none => ""
  | none => pyStrip cell.textContent

/-- `location = cols[0].text.strip()` (`scrape_water_level_v3.py:678`).
Callers only pass rows with at least two `td` descendants, so the
out-of-range default of `getD` is never taken. -/
def rowLocation (row : Node) : String :=
  pyStrip ((row.findAll "td").getD 0 (Node.text "")).textContent

/-- The water-level extraction (`scrape_water_level_v3.py:680-688`). -/
def rowWaterLevel (row : Node) : String :=
  nestedCellValue ((row.findAll "td").getD 1 (Node.text ""))

/-- The date-and-time extraction (`scrape_water_level_v3.py:690-713`):
third-column value when there is a third column, replaced by
`current_datetime` when it matches `^[\d.]+$`, defaulted to
`current_datetime` when there is no third column or the value ends up
empty. -/
def rowDateTime (currentDatetime : String) (row : Node) : String :=
  let cols := row.findAll "td"
  let dateTime0 :=
    if 2 < cols.length then
      let d := nestedCellValue (cols.getD 2 (Node.text ""))
      if reMatchDigitsDots d then currentDatetime else d
    else currentDatetime
  if dateTime0 == "" then currentDatetime else dateTime0

/-- One iteration of the row loop of `extract_data_from_html`
(`scrape_water_level_v3.py:669-719`), given the precomputed
`current_datetime` string. -/
def extractRow (currentDatetime : String) (row : Node) : ScrapeRecord :=
  [("Location", rowLocation row),
   ("Water Level (Feet)", rowWaterLevel row),
   ("Date & Time", rowDateTime currentDatetime row)]

/-- The `data_rows` loop (`scrape_water_level_v3.py:654-658`): keep, in
order, the rows with at least two `td` descendants. -/
def pyDataRows (rows : List Node) : List Node :=
  rows.foldl (fun acc row =>
    if 2 ≤ (row.findAll "td").length then acc ++ [row] else acc) []

/-- `extract_data_from_html` (`scrape_water_level_v3.py:602-730`): locate a
table, keep its data rows, and map the row extractor over them; `None` when
no table or no data row is found. -/
def extract_data_from_html (root : Node) (now : PyDateTime) :
    Option (List ScrapeRecord) :=
  match locateTable root with
  | none => none
  | some table =>
    let dataRows := pyDataRows (table.findAll "tr")
    if dataRows.isEmpty then none
    else some (dataRows.map (extractRow (fmtYmdHms now)))

/-- The hard-coded location list of `generate_mock_data`
(`scrape_water_level_v3.py:737-748`). -/
def mockLocations : List String :=
  ["AJWA DAM", "AKOTA BRIDGE", "ASOJ FEEDER", "BAHUCHARAJI BRIDGE",
   "KALA GHODA", "MANGAL PANDEY BRIDGE", "MUJMAUDA BRIDGE",
   "PRATAPPURA DAM", "SAMA HARNI BRIDGE", "VADSAR BRIDGE"]

/-- Python `round(x, 2)` on the sampled value, over ℚ: round to the nearest
hundredth (tie behaviour is irrelevant to the claims). -/
def pyRound2 (q : ℚ) : ℚ :=
  ((round (q * 100) : ℤ) : ℚ) / 100

/-- The loop body of `generate_mock_data`: the `i`-th location paired with
the `i`-th `random.uniform(0, 250)` draw (`rng i`), rounded and rendered by
the external float-to-string conversion `floatRepr` (Python `str`). -/
def mockRows (current : String) (rng : Nat → ℚ) (floatRepr : ℚ → String) :
    Nat → List String → List ScrapeRecord
  | _, [] => []
  | i, loc :: rest =>
    [("Location", loc),
     ("Water Level (Feet)", floatRepr (pyRound2 (rng i))),
     ("Date & Time", current)] :: mockRows current rng floatRepr (i + 1) rest

/-- `generate_mock_data` (`scrape_water_level_v3.py:732-766`): one record
per hard-coded location, all stamped with the single `current_datetime`
computed at entry. -/
def generate_mock_data (now : PyDateTime) (rng : Nat → ℚ)
    (floatRepr : ℚ → String) : List ScrapeRecord :=
  mockRows (fmtDmyHms now) rng floatRepr 0 mockLocations

/-- The extractor of `scrape_water_level.py:16-93`: only the `GridView1`
table, rows after the first two, rows with fewer than three `td`s or
without a nested water-level table skipped. -/
def scrape_v1_extract (root : Node) : List ScrapeRecord :=
  match (root.findAll "table").find? isGridView1 with
  | none => []
  | some table =>
    ((table.findAll "tr").drop 2).foldl (fun acc row =>
      let cols := row.findAll "td"
      if cols.length < 3 then acc
      else
        match (cols.getD 1 (Node.text "")).findTag "table" with
        | none => acc
        | some wlTable =>
          match wlTable.findTag "td" with
          | none => acc
          | some wlTd =>
            acc ++ [[("Location", pyStrip (cols.getD 0 (Node.text "")).textContent),
                     ("Water Level (Feet)", pyStrip wlTd.textContent),
                     ("Date & Time", pyStrip (cols.getD 2 (Node.text "")).textContent)]])
      []

/-- `save_to_csv` (`scrape_water_level_v3.py:841-877`, identically
`scrape_water_level.py:95-128`): `None` on empty data, else the path
`os.path.join('data', filename)` with the dated default filename.  The
actual write is I/O and is not modelled; the returned path is. -/
def save_to_csv (data : List ScrapeRecord) (filename : Option String)
    (now : PyDateTime) : Option String :=
  if data.isEmpty then none
  else
    let fn := match filename with
      | none => "water_level_data_" ++ fmtYmd now ++ ".csv"
      | some f => f
    some ("data" ++ "/" ++ fn)

/-- The usefulness check every curl-based fetcher applies
(`scrape_water_level_v3.py:101,159,208`):
`"<table" in content.lower() or "water level" in content.lower()`. -/
def usefulContent (c : String) : Bool :=
  pyContains (pyLower c) "<table" || pyContains (pyLower c) "water level"

/-- The shared fetch loop of the three curl-based fetchers: `curl i` is the
stdout of the `i`-th curl invocation when it exits 0 (`none` models a
non-zero exit or an exception), `unwrap` the per-service post-processing
applied before the usefulness check. -/
def fetchLoop (curl : Nat → Option String) (unwrap : Nat → String → String) :
    List Nat → Option String
  | [] => none
  | i :: rest =>
    match curl i with
    | some raw =>
      let content := unwrap i raw
      if usefulContent content then some content
      else fetchLoop curl unwrap rest
    | none => fetchLoop curl unwrap rest

/-- `try_with_indian_proxy` (`scrape_water_level_v3.py:66-114`): ten
proxies tried in (shuffled) order, the content returned unprocessed. -/
def try_with_indian_proxy (curl : Nat → Option String) : Option String :=
  fetchLoop curl (fun _ c => c) (List.range 10)

/-- `try_indian_web_proxy` (`scrape_water_level_v3.py:174-221`): three web
proxies tried in order, the content returned unprocessed. -/
def try_indian_web_proxy (curl : Nat → Option String) : Option String :=
  fetchLoop curl (fun _ c => c) (List.range 3)

/-- `try_proxy_service` (`scrape_water_level_v3.py:116-172`): three proxy
services; service 0 (allorigins) has its JSON wrapper unwrapped first when
`json.loads(content)["contents"]` exists (`jsonContents` models that,
`none` covering both a parse failure and a missing key). -/
def try_proxy_service (curl : Nat → Option String)
    (jsonContents : String → Option String) : Option String :=
  fetchLoop curl
    (fun i c => if i == 0 then (jsonContents c).getD c else c)
    (List.range 3)

/-! ### The retry pipeline of `scrape_water_level_data` (v3, lines 768-839)

The five acquisition strategies are, in source order:
slot 1 `scrape_with_selenium_and_proxy`, slot 2 `scrape_with_selenium`
(both only when `SELENIUM_AVAILABLE`), slot 3 `try_with_indian_proxy`,
slot 4 `try_indian_web_proxy`, slot 5 `try_proxy_service`, the last three
followed by `extract_data_from_html` on the fetched content.

The browser-driven strategies and the network are external: an environment
records, per attempt, what each selenium call returns and what raw content
each fetcher would hand back.  Content fetched by slots 3-5 is parsed by
the environment's `parse` (BeautifulSoup) and run through the real
`extract_data_from_html`.  A `raised` outcome models an exception escaping
into the pipeline's `except` handler.  The run is summarised as a trace of
events (attempt started, strategy invoked, `time.sleep` called) plus the
returned record list. -/

/-- What a selenium-based strategy call comes back with: a record list,
`None`, or an escaped exception. -/
inductive SelResult where
  | gotData (d : List ScrapeRecord)
  | noData
  | raised

/-- What a curl-based fetcher comes back with: page content, `None`, or an
escaped exception. -/
inductive FetchResult where
  | gotContent (c : String)
  | noContent
  | raised

/-- The environment of one pipeline run: external collaborator behaviour
per attempt, plus the abstracted wall clock, RNG and float rendering. -/
structure ScrapeEnv where
  seleniumAvailable : Bool
  selProxyRun : Nat → SelResult
  selPlainRun : Nat → SelResult
  indianProxyFetch : Nat → FetchResult
  indianWebProxyFetch : Nat → FetchResult
  proxyServiceFetch : Nat → FetchResult
  parse : String → Node
  now : PyDateTime
  rng : Nat → ℚ
  floatRepr : ℚ → String

/-- How one strategy invocation ends, after the pipeline's own
`if data:` truthiness test. -/
inductive SlotOutcome where
  | ok (d : List ScrapeRecord)
  | noData
  | raised

/-- Truthiness test `if data:` applied to a selenium strategy's result. -/
def selOutcome : SelResult → SlotOutcome
  | .gotData d => if d.isEmpty then .noData else .ok d
  | .noData => .noData
  | .raised => .raised

/-- A fetcher slot: on content, run the real `extract_data_from_html` and
apply `if data:`; `None` content skips extraction. -/
def fetchOutcome (e : ScrapeEnv) : FetchResult → SlotOutcome
  | .gotContent c =>
    match extract_data_from_html (e.parse c) e.now with
    | some d => if d.isEmpty then .noData else .ok d
    | none => .noData
  | .noContent => .noData
  | .raised => .raised

/-- The outcome of strategy `slot` during attempt `a`. -/
def slotOutcome (e : ScrapeEnv) (a slot : Nat) : SlotOutcome :=
  if slot == 1 then selOutcome (e.selProxyRun a)
  else if slot == 2 then selOutcome (e.selPlainRun a)
  else if slot == 3 then fetchOutcome e (e.indianProxyFetch a)
  else if slot == 4 then fetchOutcome e (e.indianWebProxyFetch a)
  else fetchOutcome e (e.proxyServiceFetch a)

/-- The strategies one attempt walks, in source order; slots 1 and 2 are
guarded by `if SELENIUM_AVAILABLE`. -/
def enabledSlots (e : ScrapeEnv) : List Nat :=
  if e.seleniumAvailable then [1, 2, 3, 4, 5] else [3, 4, 5]

/-- An observable event of the pipeline run. -/
inductive Ev where
  | attempt (n : Nat)
  | strat (slot : Nat)
  | sleep (secs : Nat)
deriving DecidableEq, Repr

/-- How one whole attempt (one iteration of `for attempt in range(...)`)
ends. -/
inductive AttemptResult where
  | success (d : List ScrapeRecord)
  | exhausted
  | raised

/-- Walk the enabled strategies of attempt `a` in order: stop and return at
the first truthy result, abort the attempt at the first escaped exception,
otherwise fall through to `.exhausted`. -/
def scanSlots (e : ScrapeEnv) (a : Nat) : List Nat → List Ev × AttemptResult
  | [] => ([], .exhausted)
  | i :: rest =>
    match slotOutcome e a i with
    | .ok d => ([Ev.strat i], .success d)
    | .noData =>
      let (evs, r) := scanSlots e a rest
      (Ev.strat i :: evs, r)
    | .raised => ([Ev.strat i], .raised)

/-- The attempt loop (`scrape_water_level_v3.py:778-839`): a successful
attempt returns its data; an exhausted attempt moves on with no sleep; an
attempt aborted by an exception sleeps 10 seconds first — but only when
retries remain (`if attempt < max_retries`); after the last attempt the
mock data is returned. -/
def runAttempts (e : ScrapeEnv) (maxRetries : Nat) :
    List Nat → List Ev × List ScrapeRecord
  | [] => ([], generate_mock_data e.now e.rng e.floatRepr)
  | a :: rest =>
    match scanSlots e a (enabledSlots e) with
    | (evs, .success d) => (Ev.attempt a :: evs, d)
    | (evs, .exhausted) =>
      let (evs2, d) := runAttempts e maxRetries rest
      (Ev.attempt a :: (evs ++ evs2), d)
    | (evs, .raised) =>
      let sleeps := if a < maxRetries then [Ev.sleep 10] else []
      let (evs2, d) := runAttempts e maxRetries rest
      (Ev.attempt a :: (evs ++ sleeps ++ evs2), d)

/-- `scrape_water_level_data(max_retries=2)`
(`scrape_water_level_v3.py:768-839`): `max_retries + 1` attempts, then the
mock-data fallback. -/
def scrape_water_level_data (e : ScrapeEnv) (maxRetries : Nat := 2) :
    List Ev × List ScrapeRecord :=
  runAttempts e maxRetries (List.range (maxRetries + 1))

/-! ## Shared record vocabulary and helper lemmas -/

/-- The keys of a record, in insertion order. -/
def recordKeys (r : ScrapeRecord) : List String :=
  r.map Prod.fst

/-- The three fields every emitted record is supposed to carry. -/
def standardKeys : List String :=
  ["Location", "Water Level (Feet)", "Date & Time"]

/-- A well-formed `Date & Time` value: neither empty nor made up solely of
digits and dots. -/
def dtOk (s : String) : Bool :=
  !s.isEmpty && !(s.data.all (fun c => c.isDigit || c == '.'))

theorem recordKeys_extractRow (c : String) (row : Node) :
    recordKeys (extractRow c row) = standardKeys := rfl

theorem pyDataRows_eq_filter (rows : List Node) :
    pyDataRows rows = rows.filter (fun r => 2 ≤ (r.findAll "td").length) := by
  have h : ∀ (l acc : List Node),
      l.foldl (fun acc row =>
          if 2 ≤ (row.findAll "td").length then acc ++ [row] else acc) acc
        = acc ++ l.filter (fun r => 2 ≤ (r.findAll "td").length) := by
    intro l
    induction l with
    | nil => intro acc; simp
    | cons x xs ih =>
      intro acc
      by_cases hx : 2 ≤ (x.findAll "td").length
      · simp [hx, ih, List.filter_cons]
      · simp [hx, ih, List.filter_cons]
  simpa [pyDataRows] using h rows []

theorem extract_data_eq_map (root : Node) (now : PyDateTime) (table : Node)
    (hloc : locateTable root = some table)
    (hrows : pyDataRows (table.findAll "tr") ≠ []) :
    extract_data_from_html root now
      = some ((pyDataRows (table.findAll "tr")).map (extractRow (fmtYmdHms now))) := by
  unfold extract_data_from_html
  rw [hloc]
  simp [List.isEmpty_iff, hrows]

theorem extract_data_some_shape (root : Node) (now : PyDateTime)
    (out : List ScrapeRecord)
    (h : extract_data_from_html root now = some out) :
    ∃ table, locateTable root = some table ∧
      out = (pyDataRows (table.findAll "tr")).map (extractRow (fmtYmdHms now)) := by
  unfold extract_data_from_html at h
  cases hloc : locateTable root with
  | none => rw [hloc] at h; exact absurd h (by simp)
  | some table =>
    rw [hloc] at h
    by_cases he : (pyDataRows (table.findAll "tr")).isEmpty
    · simp [he] at h
    · simp [he] at h
      exact ⟨table, rfl, h.symm⟩

theorem dash_mem_fmtYmdHms (t : PyDateTime) : '-' ∈ (fmtYmdHms t).data := by
  have hd : '-' ∈ ("-" : String).data := by decide
  simp only [fmtYmdHms, String.data_append, List.mem_append]
  tauto

theorem mem_data_ne_empty {c : Char} {s : String} (h : c ∈ s.data) :
    s.isEmpty = false := by
  by_contra hne
  have : s = "" := by
    cases hb : s.isEmpty
    · exact absurd hb hne
    · exact (String.isEmpty_iff _).mp hb
  subst this
  simp at h

theorem dtOk_fmtYmdHms (t : PyDateTime) : dtOk (fmtYmdHms t) = true := by
  have hd := dash_mem_fmtYmdHms t
  have h1 : (fmtYmdHms t).isEmpty = false := mem_data_ne_empty hd
  have h2 : (fmtYmdHms t).data.all (fun c => c.isDigit || c == '.') = false := by
    by_contra hne
    have hall : (fmtYmdHms t).data.all (fun c => c.isDigit || c == '.') = true := by
      cases hb : (fmtYmdHms t).data.all (fun c => c.isDigit || c == '.')
      · exact absurd hb hne
      · rfl
    have := List.all_eq_true.mp hall _ hd
    simp at this
  simp [dtOk, h1, h2]

theorem s_ne_empty_data {s : String} (h : s ≠ "") : s.data ≠ [] := by
  intro hd
  exact h (String.ext hd)

theorem all_digitdot_rematch {s : String} (hs : s ≠ "")
    (hall : s.data.all (fun c => c.isDigit || c == '.') = true) :
    reMatchDigitsDots s = true := by
  have hd : s.data ≠ [] := s_ne_empty_data hs
  obtain ⟨c, hc⟩ := List.getLast?_isSome.mpr hd |> Option.isSome_iff_exists.mp
  have hcs : c ∈ s.data := List.mem_of_mem_getLast? hc
  have hcd : (c.isDigit || c == '.') = true := List.all_eq_true.mp hall _ hcs
  have hcn : c ≠ '\n' := by
    intro he
    subst he
    simp at hcd
  have hbeq : (s.data.getLast? == some '\n') = false := by
    rw [hc]
    simp [hcn]
  simp [reMatchDigitsDots, hbeq, hall, hd]

theorem dtOk_ite_empty (c s : String) (hc : dtOk c = true)
    (hs : s ≠ "" → dtOk s = true) :
    dtOk (if s == "" then c else s) = true := by
  by_cases he : s = ""
  · simp [he, hc]
  · simp [he]
    exact hs he

theorem dtOk_rowDateTime (c : String) (row : Node) (hc : dtOk c = true) :
    dtOk (rowDateTime c row) = true := by
  rw [rowDateTime]
  by_cases hlen : 2 < (row.findAll "td").length
  · rw [if_pos hlen]
    set d := nestedCellValue ((row.findAll "td").getD 2 (Node.text "")) with hd
    by_cases hm : reMatchDigitsDots d = true
    · rw [if_pos hm]
      exact dtOk_ite_empty c c hc (fun _ => hc)
    · rw [if_neg hm]
      refine dtOk_ite_empty c d hc (fun hne => ?_)
      have hall : d.data.all (fun ch => ch.isDigit || ch == '.') = false := by
        cases hb : d.data.all (fun ch => ch.isDigit || ch == '.')
        · rfl
        · exact absurd (all_digitdot_rematch hne hb) hm
      have hie : d.isEmpty = false := by
        cases hb : d.isEmpty
        · rfl
        · exact absurd ((String.isEmpty_iff _).mp hb) hne
      simp [dtOk, hie, hall]
  · rw [if_neg hlen]
    exact dtOk_ite_empty c c hc (fun _ => hc)

theorem foldl_all_preserve {α : Type} (P : ScrapeRecord → Bool)
    (step : List ScrapeRecord → α → List ScrapeRecord)
    (h : ∀ acc x, acc.all P = true → (step acc x).all P = true) :
    ∀ (l : List α) (acc : List ScrapeRecord),
      acc.all P = true → (l.foldl step acc).all P = true := by
  intro l
  induction l with
  | nil => intro acc ha; simpa using ha
  | cons x xs ih => intro acc ha; exact ih _ (h acc x ha)

theorem scrape_v1_all_keys (root : Node) :
    (scrape_v1_extract root).all (fun r => recordKeys r == standardKeys) = true := by
  rw [scrape_v1_extract]
  cases hf : (root.findAll "table").find? isGridView1 with
  | none => rfl
  | some table =>
    refine foldl_all_preserve _ _ (fun acc row ha => ?_) _ _ rfl
    by_cases hlen : (row.findAll "td").length < 3
    · simpa [hlen] using ha
    · simp only [hlen, if_false]
      cases ((row.findAll "td").getD 1 (Node.text "")).findTag "table" with
      | none => exact ha
      | some wlTable =>
        dsimp only
        cases wlTable.findTag "td" with
        | none => exact ha
        | some wlTd =>
          dsimp only
          rw [List.all_append]
          simp [ha]
          rfl

theorem mockRows_all_keys (cur : String) (rng : Nat → ℚ) (fr : ℚ → String)
    (i : Nat) (locs : List String) :
    (mockRows cur rng fr i locs).all (fun r => recordKeys r == standardKeys)
      = true := by
  induction locs generalizing i with
  | nil => rfl
  | cons l ls ih =>
    rw [mockRows, List.all_cons, ih (i + 1)]
    rfl

theorem extract_all_of_row (root : Node) (now : PyDateTime)
    (P : ScrapeRecord → Bool)
    (h : ∀ row, P (extractRow (fmtYmdHms now) row) = true) :
    ((extract_data_from_html root now).getD []).all P = true := by
  cases hx : extract_data_from_html root now with
  | none => rfl
  | some out =>
    obtain ⟨table, _, hshape⟩ := extract_data_some_shape root now out hx
    subst hshape
    rw [Option.getD_some, List.all_eq_true]
    intro r hr
    obtain ⟨row, _, hrow⟩ := List.mem_map.mp hr
    rw [← hrow]
    exact h row

/-- C6: every record emitted by the v3 extractor, the plain-requests
extractor and the mock generator is a flat record with exactly the three
string-valued fields `Location`, `Water Level (Feet)`, `Date & Time`, in
that order. -/
theorem c6_record_fields (root : Node) (now : PyDateTime) (rng : Nat → ℚ)
    (fr : ℚ → String) :
    ((extract_data_from_html root now).getD []).all
        (fun r => recordKeys r == standardKeys) = true
    ∧ (scrape_v1_extract root).all (fun r => recordKeys r == standardKeys) = true
    ∧ (generate_mock_data now rng fr).all
        (fun r => recordKeys r == standardKeys) = true := by
  refine ⟨?_, scrape_v1_all_keys root, mockRows_all_keys _ _ _ _ _⟩
  exact extract_all_of_row root now _ (fun row => rfl)

/-- C8: every record the v3 extractor emits carries a `Date & Time` value
that is neither empty nor a bare run of digits and dots: such third-column
values are replaced by the formatted wall-clock time, whose `%Y-%m-%d`
part always contains a dash. -/
theorem c8_datetime_invariant (root : Node) (now : PyDateTime) :
    ((extract_data_from_html root now).getD []).all
      (fun r => dtOk ((r.lookup "Date & Time").getD "")) = true := by
  refine extract_all_of_row root now _ (fun row => ?_)
  have hl : (extractRow (fmtYmdHms now) row).lookup "Date & Time"
      = some (rowDateTime (fmtYmdHms now) row) := rfl
  rw [hl, Option.getD_some]
  exact dtOk_rowDateTime _ row (dtOk_fmtYmdHms now)

/-- C9: a row is kept as a data row exactly when it has at least two `td`
descendants — no content-based header detection — and the extraction maps
exactly one output record onto every kept row. -/
theorem c9_data_row_selection (rows : List Node) (root : Node)
    (now : PyDateTime) (table : Node) :
    pyDataRows rows = rows.filter (fun r => 2 ≤ (r.findAll "td").length)
    ∧ (locateTable root = some table →
        pyDataRows (table.findAll "tr") ≠ [] →
        extract_data_from_html root now
          = some ((pyDataRows (table.findAll "tr")).map
              (extractRow (fmtYmdHms now)))) :=
  ⟨pyDataRows_eq_filter rows,
   fun h1 h2 => extract_data_eq_map root now table h1 h2⟩

/-! ## C1: the table-locator fallback chain -/

/-- `t` is the first table of `l` (in document order) satisfying `p`. -/
def FirstSuchTable (l : List Node) (p : Node → Bool) (t : Node) : Prop :=
  p t = true ∧ ∃ pre suf, l = pre ++ t :: suf ∧ ∀ u ∈ pre, p u = false

theorem find?_eq_some_iff_first (l : List Node) (p : Node → Bool) (t : Node) :
    l.find? p = some t ↔ FirstSuchTable l p t := by
  rw [List.find?_eq_some]
  unfold FirstSuchTable
  constructor
  · rintro ⟨hp, as, bs, rfl, hall⟩
    exact ⟨hp, as, bs, rfl, fun u hu => by simpa using hall u hu⟩
  · rintro ⟨hp, pre, suf, rfl, hall⟩
    exact ⟨hp, pre, suf, rfl, fun u hu => by simpa using hall u hu⟩

/-- C1 (amended): the locator tries `id='GridView1'`, then a class
containing `'table'`, then a `'water level'` string, then — not the
largest table but — the *first* table with more than five rows. -/
theorem c1_locator_chain (root : Node) (t : Node) :
    locateTable root = some t ↔
      (FirstSuchTable (root.findAll "table") isGridView1 t
       ∨ ((∀ u ∈ root.findAll "table", isGridView1 u = false)
            ∧ FirstSuchTable (root.findAll "table") classHasTable t)
       ∨ ((∀ u ∈ root.findAll "table", isGridView1 u = false)
            ∧ (∀ u ∈ root.findAll "table", classHasTable u = false)
            ∧ FirstSuchTable (root.findAll "table") hasWaterLevelString t)
       ∨ ((∀ u ∈ root.findAll "table", isGridView1 u = false)
            ∧ (∀ u ∈ root.findAll "table", classHasTable u = false)
            ∧ (∀ u ∈ root.findAll "table", hasWaterLevelString u = false)
            ∧ FirstSuchTable (root.findAll "table") hasManyRows t)) := by
  have hnone : ∀ (l : List Node) (p : Node → Bool),
      (∀ u ∈ l, p u = false) ↔ l.find? p = none := by
    intro l p
    rw [List.find?_eq_none]
    simp
  unfold locateTable
  simp only [← find?_eq_some_iff_first, hnone]
  cases h1 : (root.findAll "table").find? isGridView1 with
  | some t1 => simp [h1]
  | none =>
    dsimp only
    cases h2 : (root.findAll "table").find? classHasTable with
    | some t2 => simp [h1, h2]
    | none =>
      dsimp only
      cases h3 : (root.findAll "table").find? hasWaterLevelString with
      | some t3 => simp [h1, h2, h3]
      | none =>
        dsimp only
        simp [h1, h2, h3]

/-- Two anonymous tables, the first with 6 rows, the second with 7. -/
def c1exTableA : Node :=
  .elem "table" none none (List.replicate 6 (.elem "tr" none none []))

def c1exTableB : Node :=
  .elem "table" none none (List.replicate 7 (.elem "tr" none none []))

def c1exDoc : Node :=
  .elem "[document]" none none [c1exTableA, c1exTableB]

/-- C1 counterexample: with no id, class or keyword match, the locator
returns the *first* table with more than five rows (6 rows), not the
largest table on the page (7 rows). -/
theorem c1_counterexample :
    locateTable c1exDoc = some c1exTableA
    ∧ (c1exTableA.findAll "tr").length = 6
    ∧ (c1exTableB.findAll "tr").length = 7
    ∧ c1exTableB ∈ c1exDoc.findAll "table" := by
  refine ⟨rfl, rfl, rfl, ?_⟩
  show c1exTableB ∈ [c1exTableA, c1exTableB]
  exact List.mem_cons_of_mem _ (List.mem_cons_self _ _)

/-! ## C2: the per-row record fields -/

theorem dt_merge (c d : String) (p : Bool) :
    (if (if p then c else d) == "" then c else (if p then c else d))
      = (if p || (d == "") then c else d) := by
  cases p
  · by_cases he : d = "" <;> simp [he]
  · simp

theorem rowDateTime_merged (c : String) (row : Node) :
    rowDateTime c row =
      (if 2 < (row.findAll "td").length then
        (let d := nestedCellValue ((row.findAll "td").getD 2 (Node.text ""))
         if reMatchDigitsDots d || (d == "") then c else d)
      else c) := by
  rw [rowDateTime]
  by_cases hlen : 2 < (row.findAll "td").length
  · rw [if_pos hlen, if_pos hlen]
    exact dt_merge c _ _
  · rw [if_neg hlen, if_neg hlen, ite_self]

/-- A data row whose third `td` holds the bare numeric text `123.45`. -/
def c2exRow : Node :=
  .elem "tr" none none
    [.elem "td" none none [.text "KALA GHODA"],
     .elem "td" none none [.text "12.5"],
     .elem "td" none none [.text "123.45"]]

def c2exDoc : Node :=
  .elem "[document]" none none
    [.elem "table" (some "GridView1") none [c2exRow]]

def c2exNow : PyDateTime := ⟨2025, 3, 4, 5, 6, 7⟩

/-- C2 counterexample: the third cell is present with text `123.45`, yet
the emitted `Date & Time` is the formatted wall-clock time, not the cell's
text — the claim's "timestamp taken from the third cell when present"
fails on bare-numeric cells. -/
theorem c2_counterexample :
    extract_data_from_html c2exDoc c2exNow
      = some [[("Location", "KALA GHODA"), ("Water Level (Feet)", "12.5"),
               ("Date & Time", "2025-03-04 05:06:07")]]
    ∧ pyStrip ((c2exRow.findAll "td").getD 2 (Node.text "")).textContent
        = "123.45"
    ∧ ("2025-03-04 05:06:07" : String) ≠ "123.45" := by
  refine ⟨?_, ?_, ?_⟩
  · rfl
  · rfl
  · decide

/-- C2 (amended): each record takes its location from the first cell's
stripped text, its water level from the first `td` of a nested table in
the second cell when present (else the second cell's text), and its
timestamp from the third cell (or its nested table) — except that a value
matching `^[\d.]+$` or ending up empty is replaced by the wall-clock time,
which is also used when there is no third cell. -/
theorem c2_row_fields (root : Node) (now : PyDateTime)
    (out : List ScrapeRecord) (c : String) (row : Node) :
    (extract_data_from_html root now = some out →
      ∃ table, locateTable root = some table ∧
        out = (pyDataRows (table.findAll "tr")).map (extractRow (fmtYmdHms now)))
    ∧ (extractRow c row).lookup "Location"
        = some (pyStrip ((row.findAll "td").getD 0 (Node.text "")).textContent)
    ∧ (extractRow c row).lookup "Water Level (Feet)"
        = some (nestedCellValue ((row.findAll "td").getD 1 (Node.text "")))
    ∧ (extractRow c row).lookup "Date & Time"
        = some (if 2 < (row.findAll "td").length then
                  (let d := nestedCellValue ((row.findAll "td").getD 2 (Node.text ""))
                   if reMatchDigitsDots d || (d == "") then c else d)
                else c) := by
  refine ⟨extract_data_some_shape root now out, rfl, rfl, ?_⟩
  have hdt : (extractRow c row).lookup "Date & Time"
      = some (rowDateTime c row) := rfl
  exact hdt.trans (congrArg some (rowDateTime_merged c row))

/-! ## C7: the CSV path -/

/-- C7: with records to save and no explicit filename, `save_to_csv`
targets `data/water_level_data_<YYYY-MM-DD>.csv` and returns that path. -/
theorem c7_save_path (data : List ScrapeRecord) (now : PyDateTime)
    (h : data ≠ []) :
    save_to_csv data none now
      = some ("data/water_level_data_" ++ fmtYmd now ++ ".csv") := by
  unfold save_to_csv
  have he : data.isEmpty = false := by
    cases hb : data.isEmpty
    · rfl
    · exact absurd (List.isEmpty_iff.mp hb) h
  rw [he]
  simp only [Bool.false_eq_true, if_false]
  congr 1

def c7exData : List ScrapeRecord :=
  [[("Location", "AJWA DAM"), ("Water Level (Feet)", "212.05"),
    ("Date & Time", "11-10-2025 09:00:00")]]

def c7exNow : PyDateTime := ⟨2025, 10, 11, 0, 0, 0⟩

theorem c7_witness :
    c7exData ≠ []
    ∧ save_to_csv c7exData none c7exNow
        = some ("data/water_level_data_" ++ fmtYmd c7exNow ++ ".csv") :=
  ⟨List.cons_ne_nil _ _, c7_save_path c7exData c7exNow (List.cons_ne_nil _ _)⟩

/-! ## C10: the mock-data generator -/

theorem pyRound2_bounds (x : ℚ) (h0 : 0 ≤ x) (h250 : x ≤ 250) :
    0 ≤ pyRound2 x ∧ pyRound2 x ≤ 250 := by
  unfold pyRound2
  constructor
  · apply div_nonneg _ (by norm_num)
    have hz : (0 : ℤ) ≤ round (x * 100) := by
      rw [round_eq]
      apply Int.floor_nonneg.mpr
      have : 0 ≤ x * 100 := mul_nonneg h0 (by norm_num)
      linarith
    exact_mod_cast hz
  · have hle : round (x * 100) ≤ 25000 := by
      rw [round_eq]
      have h1 : x * 100 + 1 / 2 < ((25001 : ℤ) : ℚ) := by
        push_cast
        nlinarith
      have h2 := Int.floor_lt.mpr h1
      omega
    have hc : ((round (x * 100) : ℤ) : ℚ) ≤ 25000 := by exact_mod_cast hle
    linarith

theorem mockRows_length (cur : String) (rng : Nat → ℚ) (fr : ℚ → String) :
    ∀ (locs : List String) (i : Nat),
      (mockRows cur rng fr i locs).length = locs.length := by
  intro locs
  induction locs with
  | nil => intro i; rfl
  | cons l ls ih => intro i; simp [mockRows, ih (i + 1)]

theorem mockRows_locs (cur : String) (rng : Nat → ℚ) (fr : ℚ → String) :
    ∀ (locs : List String) (i : Nat),
      (mockRows cur rng fr i locs).map
          (fun r => (r.lookup "Location").getD "") = locs := by
  intro locs
  induction locs with
  | nil => intro i; rfl
  | cons l ls ih =>
    intro i
    rw [mockRows, List.map_cons, ih (i + 1)]
    rfl

theorem mockRows_dt (cur : String) (rng : Nat → ℚ) (fr : ℚ → String) :
    ∀ (locs : List String) (i : Nat),
      ∀ r ∈ mockRows cur rng fr i locs,
        r.lookup "Date & Time" = some cur := by
  intro locs
  induction locs with
  | nil => intro i r hr; simp [mockRows] at hr
  | cons l ls ih =>
    intro i r hr
    rw [mockRows, List.mem_cons] at hr
    rcases hr with h | h
    · subst h; rfl
    · exact ih (i + 1) r h

theorem mockRows_wl (cur : String) (rng : Nat → ℚ) (fr : ℚ → String) :
    ∀ (locs : List String) (i : Nat),
      ∀ r ∈ mockRows cur rng fr i locs,
        ∃ j, r.lookup "Water Level (Feet)" = some (fr (pyRound2 (rng j))) := by
  intro locs
  induction locs with
  | nil => intro i r hr; simp [mockRows] at hr
  | cons l ls ih =>
    intro i r hr
    rw [mockRows, List.mem_cons] at hr
    rcases hr with h | h
    · exact ⟨i, by subst h; rfl⟩
    · exact ih (i + 1) r h

/-- C10: `generate_mock_data` yields exactly 10 records, one per
hard-coded location in order, all sharing the single formatted timestamp,
each water level being the rendered form of a value in `[0, 250]` that is
a whole number of hundredths. -/
theorem c10_mock_shape (now : PyDateTime) (rng : Nat → ℚ) (fr : ℚ → String)
    (h : ∀ i, 0 ≤ rng i ∧ rng i ≤ 250) :
    (generate_mock_data now rng fr).length = 10
    ∧ (generate_mock_data now rng fr).map
        (fun r => (r.lookup "Location").getD "") = mockLocations
    ∧ (∀ r ∈ generate_mock_data now rng fr,
        r.lookup "Date & Time" = some (fmtDmyHms now))
    ∧ (∀ r ∈ generate_mock_data now rng fr, ∃ v : ℚ,
        r.lookup "Water Level (Feet)" = some (fr v)
        ∧ 0 ≤ v ∧ v ≤ 250 ∧ ∃ n : ℤ, v = (n : ℚ) / 100) := by
  refine ⟨?_, mockRows_locs _ _ _ _ _, mockRows_dt _ _ _ _ _, ?_⟩
  · rw [generate_mock_data, mockRows_length]
    rfl
  · intro r hr
    obtain ⟨j, hj⟩ := mockRows_wl (fmtDmyHms now) rng fr mockLocations 0 r hr
    refine ⟨pyRound2 (rng j), hj, (pyRound2_bounds _ (h j).1 (h j).2).1,
      (pyRound2_bounds _ (h j).1 (h j).2).2, round (rng j * 100), rfl⟩

def c10exNow : PyDateTime := ⟨2025, 10, 11, 12, 0, 0⟩

def c10exRng : Nat → ℚ := fun _ => 1234567 / 10000

def c10exRepr : ℚ → String := fun _ => "123.46"

theorem c10_witness :
    (∀ i, 0 ≤ c10exRng i ∧ c10exRng i ≤ 250)
    ∧ (generate_mock_data c10exNow c10exRng c10exRepr).length = 10 := by
  have h : ∀ i, 0 ≤ c10exRng i ∧ c10exRng i ≤ 250 :=
    fun i => ⟨by norm_num [c10exRng], by norm_num [c10exRng]⟩
  exact ⟨h, (c10_mock_shape c10exNow c10exRng c10exRepr h).1⟩

/-! ## Pipeline helper lemmas (C3, C4, C5) -/

/-- Whether a slot outcome is a truthy success. -/
def SlotOutcome.isOk : SlotOutcome → Bool
  | .ok _ => true
  | _ => false

/-- Whether a slot outcome is an escaped exception. -/
def SlotOutcome.isRaised : SlotOutcome → Bool
  | .raised => true
  | _ => false

/-- Some strategy of attempt `a` among `l` raises. -/
def anyRaise (e : ScrapeEnv) (a : Nat) (l : List Nat) : Bool :=
  l.any (fun i => (slotOutcome e a i).isRaised)

/-- The slots an attempt actually invokes when none succeeds: everything
up to and including the first raising slot. -/
def takeToRaise (e : ScrapeEnv) (a : Nat) : List Nat → List Nat
  | [] => []
  | i :: rest =>
    if (slotOutcome e a i).isRaised then [i]
    else i :: takeToRaise e a rest

/-- The trace segment of one attempt in which no strategy succeeds. -/
def attemptSeg (e : ScrapeEnv) (mr a : Nat) : List Ev :=
  Ev.attempt a :: (takeToRaise e a (enabledSlots e)).map Ev.strat
    ++ (if anyRaise e a (enabledSlots e) && decide (a < mr)
        then [Ev.sleep 10] else [])

/-- No strategy of any of the `maxRetries + 1` attempts returns truthy
data. -/
def NoSlotSucceeds (e : ScrapeEnv) (maxRetries : Nat) : Prop :=
  ∀ a, a ≤ maxRetries → ∀ i ∈ enabledSlots e, (slotOutcome e a i).isOk = false

theorem slotOutcome_ok_nonempty (e : ScrapeEnv) (a i : Nat)
    (d : List ScrapeRecord) (h : slotOutcome e a i = SlotOutcome.ok d) :
    d ≠ [] := by
  have hsel : ∀ r, selOutcome r = SlotOutcome.ok d → d ≠ [] := by
    intro r hr
    cases r with
    | gotData d2 =>
      by_cases he : d2.isEmpty
      · simp [selOutcome, he] at hr
      · simp [selOutcome, he] at hr
        intro hd
        subst hr
        rw [hd] at he
        simp at he
    | noData => simp [selOutcome] at hr
    | raised => simp [selOutcome] at hr
  have hfetch : ∀ r, fetchOutcome e r = SlotOutcome.ok d → d ≠ [] := by
    intro r hr
    cases r with
    | gotContent c =>
      rw [fetchOutcome] at hr
      cases hx : extract_data_from_html (e.parse c) e.now with
      | none => rw [hx] at hr; simp at hr
      | some d2 =>
        rw [hx] at hr
        by_cases he : d2.isEmpty
        · simp [he] at hr
        · simp [he] at hr
          intro hd
          subst hr
          rw [hd] at he
          simp at he
    | noContent => simp [fetchOutcome] at hr
    | raised => simp [fetchOutcome] at hr
  rw [slotOutcome] at h
  by_cases h1 : (i == 1) = true
  · rw [if_pos h1] at h; exact hsel _ h
  · rw [if_neg h1] at h
    by_cases h2 : (i == 2) = true
    · rw [if_pos h2] at h; exact hsel _ h
    · rw [if_neg h2] at h
      by_cases h3 : (i == 3) = true
      · rw [if_pos h3] at h; exact hfetch _ h
      · rw [if_neg h3] at h
        by_cases h4 : (i == 4) = true
        · rw [if_pos h4] at h; exact hfetch _ h
        · rw [if_neg h4] at h; exact hfetch _ h

theorem scanSlots_cons_nodata (e : ScrapeEnv) (a i : Nat) (rest : List Nat)
    (h : slotOutcome e a i = SlotOutcome.noData) :
    scanSlots e a (i :: rest)
      = (Ev.strat i :: (scanSlots e a rest).1, (scanSlots e a rest).2) := by
  rw [scanSlots, h]

theorem scanSlots_cons_ok (e : ScrapeEnv) (a i : Nat) (rest : List Nat)
    (d : List ScrapeRecord) (h : slotOutcome e a i = SlotOutcome.ok d) :
    scanSlots e a (i :: rest) = ([Ev.strat i], AttemptResult.success d) := by
  rw [scanSlots, h]

theorem scanSlots_cons_raised (e : ScrapeEnv) (a i : Nat) (rest : List Nat)
    (h : slotOutcome e a i = SlotOutcome.raised) :
    scanSlots e a (i :: rest) = ([Ev.strat i], AttemptResult.raised) := by
  rw [scanSlots, h]

theorem scanSlots_no_ok (e : ScrapeEnv) (a : Nat) :
    ∀ (l : List Nat), (∀ i ∈ l, (slotOutcome e a i).isOk = false) →
      scanSlots e a l = ((takeToRaise e a l).map Ev.strat,
        if anyRaise e a l then AttemptResult.raised else AttemptResult.exhausted) := by
  intro l
  induction l with
  | nil => intro h; simp [scanSlots, takeToRaise, anyRaise]
  | cons i rest ih =>
    intro h
    cases ho : slotOutcome e a i with
    | ok d =>
      have := h i (List.mem_cons_self _ _)
      rw [ho] at this
      simp [SlotOutcome.isOk] at this
    | noData =>
      rw [scanSlots_cons_nodata e a i rest ho,
        ih (fun j hj => h j (List.mem_cons_of_mem _ hj))]
      have hr : (slotOutcome e a i).isRaised = false := by
        rw [ho]; rfl
      simp [takeToRaise, anyRaise, ho, SlotOutcome.isRaised]
    | raised =>
      rw [scanSlots_cons_raised e a i rest ho]
      have hr : (slotOutcome e a i).isRaised = true := by
        rw [ho]; rfl
      simp [takeToRaise, anyRaise, hr]

theorem scanSlots_success_nonempty (e : ScrapeEnv) (a : Nat) :
    ∀ (l : List Nat) (evs : List Ev) (d : List ScrapeRecord),
      scanSlots e a l = (evs, AttemptResult.success d) → d ≠ [] := by
  intro l
  induction l with
  | nil =>
    intro evs d h
    rw [scanSlots] at h
    exact absurd (congrArg Prod.snd h) (by simp)
  | cons i rest ih =>
    intro evs d h
    cases ho : slotOutcome e a i with
    | ok d2 =>
      rw [scanSlots_cons_ok e a i rest d2 ho] at h
      have : AttemptResult.success d2 = AttemptResult.success d :=
        congrArg Prod.snd h
      cases this
      exact slotOutcome_ok_nonempty e a i _ ho
    | noData =>
      rw [scanSlots_cons_nodata e a i rest ho] at h
      have h2 : (scanSlots e a rest).2 = AttemptResult.success d :=
        congrArg Prod.snd h
      exact ih _ d (by rw [← h2])
    | raised =>
      rw [scanSlots_cons_raised e a i rest ho] at h
      exact absurd (congrArg Prod.snd h) (by simp)

theorem runAttempts_no_ok (e : ScrapeEnv) (mr : Nat) :
    ∀ (l : List Nat),
      (∀ a ∈ l, ∀ i ∈ enabledSlots e, (slotOutcome e a i).isOk = false) →
      runAttempts e mr l
        = (l.flatMap (attemptSeg e mr),
           generate_mock_data e.now e.rng e.floatRepr) := by
  intro l
  induction l with
  | nil => intro h; simp [runAttempts]
  | cons a rest ih =>
    intro h
    have hsc := scanSlots_no_ok e a (enabledSlots e) (h a (List.mem_cons_self _ _))
    have hrest := ih (fun a2 h2 i hi => h a2 (List.mem_cons_of_mem _ h2) i hi)
    cases hr : anyRaise e a (enabledSlots e) with
    | true =>
      rw [hr, if_pos rfl] at hsc
      rw [runAttempts, hsc]
      dsimp only
      rw [hrest]
      simp [attemptSeg, hr, List.flatMap_cons, List.append_assoc]
    | false =>
      rw [hr] at hsc
      simp only [Bool.false_eq_true, if_false] at hsc
      rw [runAttempts, hsc]
      dsimp only
      rw [hrest]
      simp [attemptSeg, hr, List.flatMap_cons, List.append_assoc]

theorem runAttempts_nonempty (e : ScrapeEnv) (mr : Nat) :
    ∀ (l : List Nat), 0 < (runAttempts e mr l).2.length := by
  intro l
  induction l with
  | nil =>
    rw [runAttempts]
    show 0 < (generate_mock_data e.now e.rng e.floatRepr).length
    rw [generate_mock_data, mockRows_length]
    decide
  | cons a rest ih =>
    rw [runAttempts]
    cases hsc : scanSlots e a (enabledSlots e) with
    | mk evs r =>
      cases r with
      | success d =>
        dsimp only
        have hd := scanSlots_success_nonempty e a (enabledSlots e) evs d hsc
        exact List.length_pos.mpr hd
      | exhausted =>
        dsimp only
        cases hrest : runAttempts e mr rest with
        | mk evs2 d2 =>
          rw [hrest] at ih
          simpa using ih
      | raised =>
        dsimp only
        cases hrest : runAttempts e mr rest with
        | mk evs2 d2 =>
          rw [hrest] at ih
          simpa using ih

theorem runAttempts_head_success (e : ScrapeEnv) (mr a : Nat)
    (rest : List Nat) (evs : List Ev) (d : List ScrapeRecord)
    (h : scanSlots e a (enabledSlots e) = (evs, AttemptResult.success d)) :
    runAttempts e mr (a :: rest) = (Ev.attempt a :: evs, d) := by
  rw [runAttempts, h]

theorem runAttempts_append_fail (e : ScrapeEnv) (mr : Nat)
    (l1 l2 : List Nat)
    (h : ∀ a ∈ l1, scanSlots e a (enabledSlots e)
        = ((enabledSlots e).map Ev.strat, AttemptResult.exhausted)) :
    runAttempts e mr (l1 ++ l2)
      = (l1.flatMap (fun a2 => Ev.attempt a2 :: (enabledSlots e).map Ev.strat)
          ++ (runAttempts e mr l2).1,
         (runAttempts e mr l2).2) := by
  induction l1 with
  | nil => simp
  | cons a rest ih =>
    rw [List.cons_append, runAttempts, h a (List.mem_cons_self _ _)]
    dsimp only
    rw [ih (fun a2 h2 => h a2 (List.mem_cons_of_mem _ h2))]
    simp [List.flatMap_cons, List.append_assoc]

/-- Event classifier: an attempt marker. -/
def isAttemptEv : Ev → Bool
  | .attempt _ => true
  | _ => false

/-- Event classifier: a `time.sleep` call. -/
def isSleepEv : Ev → Bool
  | .sleep _ => true
  | _ => false

theorem countP_flatMap {α β : Type} (f : α → List β) (p : β → Bool) :
    ∀ l : List α,
      (l.flatMap f).countP p = (l.map fun a => (f a).countP p).sum := by
  intro l
  induction l with
  | nil => rfl
  | cons a rest ih => simp [List.flatMap_cons, List.countP_append, ih]

theorem attemptSeg_count_attempt (e : ScrapeEnv) (mr a : Nat) :
    (attemptSeg e mr a).countP isAttemptEv = 1 := by
  cases hb : anyRaise e a (enabledSlots e) && decide (a < mr) <;>
    simp [attemptSeg, hb, List.countP_append, List.countP_cons,
      List.countP_map, isAttemptEv, Function.comp, List.countP_eq_zero]

theorem attemptSeg_count_sleep (e : ScrapeEnv) (mr a : Nat) :
    (attemptSeg e mr a).countP isSleepEv
      = if anyRaise e a (enabledSlots e) && decide (a < mr) then 1 else 0 := by
  cases hb : anyRaise e a (enabledSlots e) && decide (a < mr) <;>
    simp [attemptSeg, hb, List.countP_append, List.countP_cons,
      List.countP_map, isSleepEv, Function.comp, List.countP_eq_zero]

theorem sum_map_one {α : Type} : ∀ l : List α, (l.map fun _ => 1).sum = l.length := by
  intro l
  induction l with
  | nil => rfl
  | cons a rest ih => simp [ih]; omega

theorem sum_map_ite_count (p : Nat → Bool) :
    ∀ l : List Nat, (l.map fun a => if p a then 1 else 0).sum = l.countP p := by
  intro l
  induction l with
  | nil => rfl
  | cons a rest ih =>
    simp [List.countP_cons, ih]
    omega

/-! ## C3: the retry structure -/

/-- C3 (amended): when no strategy ever returns truthy data, the pipeline
runs `max_retries + 1` attempts and then returns the mock data; within
each attempt the enabled strategies run in order up to the first escaped
exception; and `time.sleep` fires exactly once per attempt that raised and
still had retries left — an attempt whose strategies all merely fail moves
to the next attempt with no sleep. -/
theorem c3_retry_structure (e : ScrapeEnv) (mr : Nat)
    (h : NoSlotSucceeds e mr) :
    (scrape_water_level_data e mr).2
        = generate_mock_data e.now e.rng e.floatRepr
    ∧ (scrape_water_level_data e mr).1
        = (List.range (mr + 1)).flatMap (attemptSeg e mr)
    ∧ (scrape_water_level_data e mr).1.countP isAttemptEv = mr + 1
    ∧ (scrape_water_level_data e mr).1.countP isSleepEv
        = (List.range mr).countP (fun a => anyRaise e a (enabledSlots e)) := by
  have hall : ∀ a ∈ List.range (mr + 1), ∀ i ∈ enabledSlots e,
      (slotOutcome e a i).isOk = false := by
    intro a ha i hi
    have : a < mr + 1 := List.mem_range.mp ha
    exact h a (by omega) i hi
  have hrun := runAttempts_no_ok e mr (List.range (mr + 1)) hall
  rw [scrape_water_level_data, hrun]
  refine ⟨rfl, rfl, ?_, ?_⟩
  · rw [countP_flatMap]
    have hmap : (List.range (mr + 1)).map
          (fun a => (attemptSeg e mr a).countP isAttemptEv)
        = (List.range (mr + 1)).map (fun _ => 1) :=
      List.map_congr_left (fun a _ => attemptSeg_count_attempt e mr a)
    rw [hmap, sum_map_one, List.length_range]
  · rw [countP_flatMap]
    have hmap : (List.range (mr + 1)).map
          (fun a => (attemptSeg e mr a).countP isSleepEv)
        = (List.range (mr + 1)).map
            (fun a => if anyRaise e a (enabledSlots e) && decide (a < mr)
              then 1 else 0) :=
      List.map_congr_left (fun a _ => attemptSeg_count_sleep e mr a)
    rw [hmap, sum_map_ite_count, List.range_succ, List.countP_append]
    have h1 : List.countP
        (fun a => anyRaise e a (enabledSlots e) && decide (a < mr)) [mr] = 0 := by
      simp
    rw [h1, Nat.add_zero]
    apply List.countP_congr
    intro x hx
    have hxlt : x < mr := List.mem_range.mp hx
    simp [hxlt]

def c3exEnv : ScrapeEnv where
  seleniumAvailable := false
  selProxyRun := fun _ => SelResult.noData
  selPlainRun := fun _ => SelResult.noData
  indianProxyFetch := fun _ => FetchResult.noContent
  indianWebProxyFetch := fun _ => FetchResult.noContent
  proxyServiceFetch := fun _ => FetchResult.noContent
  parse := fun _ => Node.text ""
  now := ⟨2025, 1, 1, 0, 0, 0⟩
  rng := fun _ => 0
  floatRepr := fun _ => "0.0"

/-- C3 counterexample: a run whose strategies all fail *without* raising
performs three whole-pipeline attempts (retries included) yet never calls
`time.sleep` — the 10-second backoff happens only on the exception path,
not between every pair of attempts. -/
theorem c3_counterexample :
    (scrape_water_level_data c3exEnv 2).1
      = [Ev.attempt 0, Ev.strat 3, Ev.strat 4, Ev.strat 5,
         Ev.attempt 1, Ev.strat 3, Ev.strat 4, Ev.strat 5,
         Ev.attempt 2, Ev.strat 3, Ev.strat 4, Ev.strat 5]
    ∧ (scrape_water_level_data c3exEnv 2).1.countP isSleepEv = 0
    ∧ (scrape_water_level_data c3exEnv 2).1.countP isAttemptEv = 3
    ∧ (scrape_water_level_data c3exEnv 2).2
        = generate_mock_data c3exEnv.now c3exEnv.rng c3exEnv.floatRepr := by
  refine ⟨?_, ?_, ?_, ?_⟩ <;> rfl

theorem c3_witness :
    NoSlotSucceeds c3exEnv 2
    ∧ (scrape_water_level_data c3exEnv 2).2
        = generate_mock_data c3exEnv.now c3exEnv.rng c3exEnv.floatRepr := by
  have h : NoSlotSucceeds c3exEnv 2 := by unfold NoSlotSucceeds; decide
  exact ⟨h, (c3_retry_structure c3exEnv 2 h).1⟩

/-! ## C5: the mock-data fallback keeps the result non-empty -/

/-- C5: every run of the pipeline returns a non-empty record list; when no
strategy ever succeeds the returned list is exactly `generate_mock_data`'s
output, which always has 10 records. -/
theorem c5_nonempty_fallback (e : ScrapeEnv) (mr : Nat) :
    0 < (scrape_water_level_data e mr).2.length
    ∧ (NoSlotSucceeds e mr →
        (scrape_water_level_data e mr).2
          = generate_mock_data e.now e.rng e.floatRepr)
    ∧ (generate_mock_data e.now e.rng e.floatRepr).length = 10 := by
  refine ⟨runAttempts_nonempty e mr _, fun h => ?_, ?_⟩
  · have hall : ∀ a ∈ List.range (mr + 1), ∀ i ∈ enabledSlots e,
        (slotOutcome e a i).isOk = false := by
      intro a ha i hi
      have : a < mr + 1 := List.mem_range.mp ha
      exact h a (by omega) i hi
    rw [scrape_water_level_data, runAttempts_no_ok e mr _ hall]
  · rw [generate_mock_data, mockRows_length]
    rfl

/-! ## C4: first-success acquisition and the usefulness filter -/

theorem fetchLoop_some_useful (curl : Nat → Option String)
    (unwrap : Nat → String → String) :
    ∀ (l : List Nat) (c : String),
      fetchLoop curl unwrap l = some c → usefulContent c = true := by
  intro l
  induction l with
  | nil => intro c h; simp [fetchLoop] at h
  | cons i rest ih =>
    intro c h
    rw [fetchLoop] at h
    cases hc : curl i with
    | none => rw [hc] at h; exact ih c h
    | some raw =>
      rw [hc] at h
      dsimp only at h
      by_cases hu : usefulContent (unwrap i raw) = true
      · rw [if_pos hu] at h
        cases h
        exact hu
      · rw [if_neg hu] at h
        exact ih c h

theorem fetchLoop_none (curl : Nat → Option String)
    (unwrap : Nat → String → String) :
    ∀ (l : List Nat),
      (∀ i ∈ l, ∀ raw, curl i = some raw →
        usefulContent (unwrap i raw) = false) →
      fetchLoop curl unwrap l = none := by
  intro l
  induction l with
  | nil => intro h; rfl
  | cons i rest ih =>
    intro h
    rw [fetchLoop]
    cases hc : curl i with
    | none => exact ih (fun j hj => h j (List.mem_cons_of_mem _ hj))
    | some raw =>
      dsimp only
      rw [if_neg (by rw [h i (List.mem_cons_self _ _) raw hc]; simp)]
      exact ih (fun j hj => h j (List.mem_cons_of_mem _ hj))

theorem scanSlots_all_nodata (e : ScrapeEnv) (a : Nat) :
    ∀ (l : List Nat), (∀ i ∈ l, slotOutcome e a i = SlotOutcome.noData) →
      scanSlots e a l = (l.map Ev.strat, AttemptResult.exhausted) := by
  intro l
  induction l with
  | nil => intro h; rfl
  | cons i rest ih =>
    intro h
    rw [scanSlots_cons_nodata e a i rest (h i (List.mem_cons_self _ _)),
      ih (fun j hj => h j (List.mem_cons_of_mem _ hj))]
    rfl

theorem scanSlots_enabled_first_ok (e : ScrapeEnv) (a slot : Nat)
    (d : List ScrapeRecord) (hmem : slot ∈ enabledSlots e)
    (hsame : ∀ i ∈ enabledSlots e, i < slot →
      slotOutcome e a i = SlotOutcome.noData)
    (hok : slotOutcome e a slot = SlotOutcome.ok d) :
    scanSlots e a (enabledSlots e)
      = (((enabledSlots e).takeWhile (fun i => i != slot) ++ [slot]).map Ev.strat,
         AttemptResult.success d) := by
  cases hsel : e.seleniumAvailable with
  | false =>
    have he : enabledSlots e = [3, 4, 5] := by rw [enabledSlots, hsel]; rfl
    rw [he] at hmem hsame ⊢
    simp only [List.mem_cons, List.not_mem_nil, or_false] at hmem
    rcases hmem with rfl | rfl | rfl
    · rw [scanSlots_cons_ok e a _ _ d hok]
      rfl
    · rw [scanSlots_cons_nodata e a _ _ (hsame 3 (by simp) (by omega)),
        scanSlots_cons_ok e a _ _ d hok]
      rfl
    · rw [scanSlots_cons_nodata e a _ _ (hsame 3 (by simp) (by omega)),
        scanSlots_cons_nodata e a _ _ (hsame 4 (by simp) (by omega)),
        scanSlots_cons_ok e a _ _ d hok]
      rfl
  | true =>
    have he : enabledSlots e = [1, 2, 3, 4, 5] := by rw [enabledSlots, hsel]; rfl
    rw [he] at hmem hsame ⊢
    simp only [List.mem_cons, List.not_mem_nil, or_false] at hmem
    rcases hmem with rfl | rfl | rfl | rfl | rfl
    · rw [scanSlots_cons_ok e a _ _ d hok]
      rfl
    · rw [scanSlots_cons_nodata e a _ _ (hsame 1 (by simp) (by omega)),
        scanSlots_cons_ok e a _ _ d hok]
      rfl
    · rw [scanSlots_cons_nodata e a _ _ (hsame 1 (by simp) (by omega)),
        scanSlots_cons_nodata e a _ _ (hsame 2 (by simp) (by omega)),
        scanSlots_cons_ok e a _ _ d hok]
      rfl
    · rw [scanSlots_cons_nodata e a _ _ (hsame 1 (by simp) (by omega)),
        scanSlots_cons_nodata e a _ _ (hsame 2 (by simp) (by omega)),
        scanSlots_cons_nodata e a _ _ (hsame 3 (by simp) (by omega)),
        scanSlots_cons_ok e a _ _ d hok]
      rfl
    · rw [scanSlots_cons_nodata e a _ _ (hsame 1 (by simp) (by omega)),
        scanSlots_cons_nodata e a _ _ (hsame 2 (by simp) (by omega)),
        scanSlots_cons_nodata e a _ _ (hsame 3 (by simp) (by omega)),
        scanSlots_cons_nodata e a _ _ (hsame 4 (by simp) (by omega)),
        scanSlots_cons_ok e a _ _ d hok]
      rfl

/-- C4: the pipeline returns the first strategy result that is truthy,
invoking no strategy after it (the trace ends at that strategy's slot);
and each curl-based fetcher hands back content only when it contains
`<table` or `water level` case-insensitively, returning `None` when no
fetched content passes that check. -/
theorem c4_first_success (e : ScrapeEnv) (mr a slot : Nat)
    (d : List ScrapeRecord)
    (hmem : slot ∈ enabledSlots e)
    (hok : slotOutcome e a slot = SlotOutcome.ok d)
    (hbefore : ∀ a2, a2 < a → ∀ i ∈ enabledSlots e,
      slotOutcome e a2 i = SlotOutcome.noData)
    (hsame : ∀ i ∈ enabledSlots e, i < slot →
      slotOutcome e a i = SlotOutcome.noData)
    (ha : a ≤ mr) :
    (scrape_water_level_data e mr).2 = d
    ∧ (scrape_water_level_data e mr).1
        = (List.range a).flatMap
            (fun a2 => Ev.attempt a2 :: (enabledSlots e).map Ev.strat)
          ++ Ev.attempt a
            :: ((enabledSlots e).takeWhile (fun i => i != slot)
                ++ [slot]).map Ev.strat
    ∧ (∀ curl c, try_with_indian_proxy curl = some c →
        usefulContent c = true)
    ∧ (∀ curl c, try_indian_web_proxy curl = some c →
        usefulContent c = true)
    ∧ (∀ curl ju c, try_proxy_service curl ju = some c →
        usefulContent c = true)
    ∧ (∀ curl, (∀ i raw, curl i = some raw → usefulContent raw = false) →
        try_with_indian_proxy curl = none ∧ try_indian_web_proxy curl = none)
    ∧ (∀ curl ju, (∀ i raw, curl i = some raw →
          usefulContent (if i == 0 then (ju raw).getD raw else raw) = false) →
        try_proxy_service curl ju = none) := by
  have hsplit : List.range (mr + 1)
      = List.range a ++ a :: ((List.range (mr - a)).map (fun x => a + (x + 1))) := by
    have h1 : mr + 1 = a + (mr - a + 1) := by omega
    rw [h1, List.range_add]
    congr 1
    rw [List.range_succ_eq_map, List.map_cons, List.map_map]
    rfl
  have hpre : ∀ a2 ∈ List.range a, scanSlots e a2 (enabledSlots e)
      = ((enabledSlots e).map Ev.strat, AttemptResult.exhausted) := by
    intro a2 h2
    exact scanSlots_all_nodata e a2 _
      (fun i hi => hbefore a2 (List.mem_range.mp h2) i hi)
  have hhead := scanSlots_enabled_first_ok e a slot d hmem hsame hok
  rw [scrape_water_level_data, hsplit, runAttempts_append_fail e mr _ _ hpre,
    runAttempts_head_success e mr a _ _ d hhead]
  refine ⟨rfl, rfl, ?_, ?_, ?_, ?_, ?_⟩
  · intro curl c h
    exact fetchLoop_some_useful curl (fun _ c2 => c2) (List.range 10) c h
  · intro curl c h
    exact fetchLoop_some_useful curl (fun _ c2 => c2) (List.range 3) c h
  · intro curl ju c h
    exact fetchLoop_some_useful curl
      (fun i c2 => if i == 0 then (ju c2).getD c2 else c2) (List.range 3) c h
  · intro curl h
    exact ⟨fetchLoop_none curl _ _ (fun i _ raw hr => h i raw hr),
      fetchLoop_none curl _ _ (fun i _ raw hr => h i raw hr)⟩
  · intro curl ju h
    exact fetchLoop_none curl _ _ (fun i _ raw hr => h i raw hr)

def c4exRow : Node :=
  .elem "tr" none none
    [.elem "td" none none [.text "AJWA DAM"],
     .elem "td" none none [.text "212.05"]]

def c4exDoc : Node :=
  .elem "[document]" none none
    [.elem "table" (some "GridView1") none [c4exRow]]

def c4exRecord : ScrapeRecord :=
  [("Location", "AJWA DAM"), ("Water Level (Feet)", "212.05"),
   ("Date & Time", "2025-01-02 03:04:05")]

def c4exEnv : ScrapeEnv where
  seleniumAvailable := false
  selProxyRun := fun _ => SelResult.noData
  selPlainRun := fun _ => SelResult.noData
  indianProxyFetch := fun _ => FetchResult.gotContent "page"
  indianWebProxyFetch := fun _ => FetchResult.noContent
  proxyServiceFetch := fun _ => FetchResult.noContent
  parse := fun _ => c4exDoc
  now := ⟨2025, 1, 2, 3, 4, 5⟩
  rng := fun _ => 0
  floatRepr := fun _ => "0.0"

theorem c4_witness :
    (scrape_water_level_data c4exEnv 2).2 = [c4exRecord]
    ∧ (scrape_water_level_data c4exEnv 2).1 = [Ev.attempt 0, Ev.strat 3] := by
  have h := c4_first_success c4exEnv 2 0 3 [c4exRecord]
    (by decide)
    (by rfl)
    (fun a2 h2 => absurd h2 (Nat.not_lt_zero a2))
    (fun i hi hlt => by
      have : i = 3 ∨ i = 4 ∨ i = 5 := by
        simpa [enabledSlots, c4exEnv] using hi
      omega)
    (by omega)
  exact ⟨h.1, by rw [h.2.1]; rfl⟩

end WaterLevel
